import Mathlib

/-!
Verification of the scene query and illumination-sampling subsystem
(`src/librender/scene.cpp` of mitsuba2), as a shallow embedding.

Floating-point values are modelled as exact rationals (`ℚ`); SIMD packets
of width `n` are modelled as functions `Fin n → _`, with masks `Fin n → Bool`.
Collaborator code living outside the provided source (the discrete
distribution, the acceleration-backend internals, record default
constructors) is modelled from the specification and marked as such in the
corresponding doc comments.
-/

/-- A 3-component vector of rationals (models `Point3f` / `Vector3f`). -/
structure Vec3 where
  x : ℚ
  y : ℚ
  z : ℚ
deriving DecidableEq

/-- Componentwise minimum. -/
def vmin (a b : Vec3) : Vec3 := ⟨min a.x b.x, min a.y b.y, min a.z b.z⟩

/-- Componentwise maximum. -/
def vmax (a b : Vec3) : Vec3 := ⟨max a.x b.x, max a.y b.y, max a.z b.z⟩

/-- Componentwise absolute value (models `enoki::abs`). -/
def vabs (a : Vec3) : Vec3 := ⟨|a.x|, |a.y|, |a.z|⟩

/-- Horizontal maximum over the three components (models `enoki::hmax`). -/
def hmax (a : Vec3) : ℚ := max a.x (max a.y a.z)

/-- A non-degenerate axis-aligned bounding box. -/
structure Box where
  lo : Vec3
  hi : Vec3
deriving DecidableEq

/-- Box centre, `(lo + hi) / 2` componentwise (models `BoundingBox3f::center`). -/
def Box.center (b : Box) : Vec3 :=
  ⟨(b.lo.x + b.hi.x) / 2, (b.lo.y + b.hi.y) / 2, (b.lo.z + b.hi.z) / 2⟩

/-- Box extents, `hi - lo` componentwise (models `BoundingBox3f::extents`). -/
def Box.extents (b : Box) : Vec3 :=
  ⟨b.hi.x - b.lo.x, b.hi.y - b.lo.y, b.hi.z - b.lo.z⟩

/-- The scene bounding box: `none` is the initial, invalid box (`m_bbox`
before any shape contributed); `some b` is a valid box.  `BoundingBox::valid`
corresponds to `Option.isSome`. -/
abbrev SceneBBox := Option Box

/-- `BoundingBox::expand` on the scene box (merging with a shape box). -/
def expandBBox : SceneBBox → Box → SceneBBox
  | none, b => some b
  | some a, b => some ⟨vmin a.lo b.lo, vmax a.hi b.hi⟩

/-- One lane of an `Interaction3f` reference point: position, time and
wavelength payload (the fields `scene.cpp` reads: `ref.p`, `ref.time`,
`ref.wavelengths`). -/
structure InteractionLane where
  p : Vec3
  time : ℚ
  wavelengths : ℚ
deriving DecidableEq

/-- One lane of a `Ray3f`: origin, direction, extents and payload, as built
by the shadow-ray constructor call in `Scene::sample_emitter_direction`. -/
structure RayLane where
  o : Vec3
  d : Vec3
  mint : ℚ
  maxt : ℚ
  time : ℚ
  wavelengths : ℚ
deriving DecidableEq

/-- One lane of a surface interaction returned by the ray-query backend;
`none` at a lane means "no hit". -/
structure SILane where
  t : ℚ
deriving DecidableEq

/-- One lane of a `DirectionSample3f`: the fields `scene.cpp` touches
(direction `d`, distance `dist`, probability density `pdf`). -/
structure DSLane where
  d : Vec3
  dist : ℚ
  pdf : ℚ
deriving DecidableEq

/-- Modelled from the spec: the zero/default `DirectionSample3f` lane — the
record default constructor lives in `records.h`, which is not part of the
provided source; the spec calls it "a zero direction sample (zero pdf)". -/
def zeroDSLane : DSLane := { d := ⟨0, 0, 0⟩, dist := 0, pdf := 0 }

/-- A width-`n` `DirectionSample3f` packet (structure of lane arrays). -/
structure DirectionSample3f (n : ℕ) where
  d : Fin n → Vec3
  dist : Fin n → ℚ
  pdf : Fin n → ℚ

/-- The zero/default width-`n` `DirectionSample3f` packet. -/
def zeroDS (n : ℕ) : DirectionSample3f n :=
  { d := fun _ => ⟨0, 0, 0⟩, dist := fun _ => 0, pdf := fun _ => 0 }

/-- An emitter: its virtual `sample_direction` (lane-wise: reference lane and
2D random sample in, one direction-sample lane and one radiance value out)
and its `is_environment` flag.  The emitter implementations are external
collaborators; the scene treats them through exactly this interface. -/
structure Emitter where
  sample_direction : InteractionLane → ℚ × ℚ → DSLane × ℚ
  is_environment : Bool

/-- Modelled from the spec: the emitter produced by an out-of-range gather
from the emitter array (never reached when the index comes from a
distribution built over the same list); it yields the zero sample. -/
def defaultEmitter : Emitter :=
  { sample_direction := fun _ _ => (zeroDSLane, 0), is_environment := false }

/-- A sensor: either one supplied by the scene description (opaque to this
layer) or one synthesized from default perspective-camera properties. -/
structure SensorProps where
  fov : ℚ
  near_clip : Option ℚ := none
  far_clip : Option ℚ := none
  focus_distance : Option ℚ := none
  to_world : Option Vec3 := none
deriving DecidableEq

inductive Sensor where
  | given (id : ℕ)
  | fromProps (p : SensorProps)
deriving DecidableEq

/-- An integrator: one supplied by the scene description, or the default
path tracer synthesized when none was registered. -/
inductive Integrator where
  | given (id : ℕ)
  | defaultPath
deriving DecidableEq

/-- A shape: its bounding box and its optional embedded emitter / sensor
(`Shape::is_emitter`, `Shape::emitter`, `Shape::is_sensor`, `Shape::sensor`). -/
structure Shape where
  bbox : Box
  emitter : Option Emitter
  sensor : Option Sensor

/-- A top-level scene-description object, as classified by the
`dynamic_cast` chain in `Scene::Scene`; `other` stands for an object of none
of the four roles (it is still recorded among the children). -/
inductive SceneObject where
  | shape (sh : Shape)
  | emitter (e : Emitter)
  | sensor (sn : Sensor)
  | integrator (ig : Integrator)
  | other (id : ℕ)

/-- Modelled from the spec: the discrete distribution over emitters
(`DiscreteDistribution<Float>` of `mitsuba/core/distr.h`, not part of the
provided source).  Per the spec it is a cumulative-weight table over N
items supporting `append`, `normalize` (after which the weights sum to 1)
and normalized sampling from a uniform scalar returning
(selected index, selection probability, reused fractional remainder). -/
structure DiscreteDistribution where
  weights : List ℚ
deriving DecidableEq

def DiscreteDistribution.init : DiscreteDistribution := ⟨[]⟩

/-- Append one weight (models `DiscreteDistribution::append`). -/
def DiscreteDistribution.append (d : DiscreteDistribution) (w : ℚ) :
    DiscreteDistribution := ⟨d.weights ++ [w]⟩

/-- Modelled from the spec: `DiscreteDistribution::normalize` rescales the
weights so that they sum to 1. -/
def DiscreteDistribution.normalize (d : DiscreteDistribution) :
    DiscreteDistribution := ⟨d.weights.map (fun w => w / d.weights.sum)⟩

/-- Walk the weight table: pick the bucket containing `x`, returning
(index, that bucket's weight, remapped remainder of `x`), clamping to the
last bucket.  Models the cumulative-table search of
`DiscreteDistribution::sample_reuse_pdf`. -/
def sampleLoop : List ℚ → ℚ → ℕ → ℕ × ℚ × ℚ
  | [], x, i => (i, 1, x)
  | [w], x, i => (i, w, x / w)
  | w :: ws, x, i => if x < w then (i, w, x / w) else sampleLoop ws (x - w) (i + 1)

/-- Modelled from the spec: normalized sampling with pdf reuse, returning
(selected index, selection probability, reused fractional remainder). -/
def DiscreteDistribution.sample_reuse_pdf (d : DiscreteDistribution) (x : ℚ) :
    ℕ × ℚ × ℚ :=
  sampleLoop d.weights x 0

/-- The acceleration-backend variant, fixed at build/startup configuration:
`SoftwareStructure` is the native kd-tree build (`scene_native.inl`,
no `MTS_USE_EMBREE`, scalar/packet `Float`); `HardwareBVH` is the Embree
build; `GPUBackend` is the OptiX/CUDA build. -/
inductive Backend where
  | SoftwareStructure
  | HardwareBVH
  | GPUBackend
deriving DecidableEq

/-- The scene after successful construction: the aggregated collections,
the precomputed emitter distribution, the configured backend variant and
the backend's per-lane nearest-hit function (`hits ray = none` means the
ray misses everything).  The backend internals live in the `.inl` files,
which are not part of the provided source; they are modelled from the spec
as this single intersection function, which every variant consults. -/
structure Scene where
  children : List SceneObject
  emitters : List Emitter
  sensors : List Sensor
  environment : Option Emitter
  integrator : Integrator
  bbox : SceneBBox
  emitter_distr : DiscreteDistribution
  variant : Backend
  hits : RayLane → Option SILane

/-- `Scene::ray_intersect`: dispatches to the configured backend
(`ray_intersect_gpu` / `ray_intersect_cpu`); per lane, active lanes get the
backend's nearest hit, inactive lanes are unspecified (modelled as `none`). -/
def Scene.ray_intersect (s : Scene) {n : ℕ} (ray : Fin n → RayLane)
    (active : Fin n → Bool) : Fin n → Option SILane :=
  fun i => if active i then s.hits (ray i) else none

/-- `Scene::ray_test`: dispatches to the configured backend
(`ray_test_gpu` / `ray_test_cpu`); modelled from the spec contract that a
lane's hit bit is set exactly when the backend finds a hit for that lane. -/
def Scene.ray_test (s : Scene) {n : ℕ} (ray : Fin n → RayLane)
    (active : Fin n → Bool) : Fin n → Bool :=
  fun i => active i && (s.hits (ray i)).isSome

/-- Modelled from the spec: `ray_intersect_naive_cpu` (in
`scene_native.inl`, not part of the provided source) is the brute-force
intersection fallback; it produces the intersection result per lane. -/
def Scene.ray_intersect_naive_cpu (s : Scene) {n : ℕ} (ray : Fin n → RayLane)
    (active : Fin n → Bool) : Fin n → Option SILane :=
  fun i => if active i then s.hits (ray i) else none

/-- `Scene::ray_intersect_naive`: available only without Embree and off the
GPU (i.e. on the `SoftwareStructure` variant); otherwise it raises
`NotImplementedError("ray_intersect_naive")`, modelled as `Except.error`. -/
def Scene.ray_intersect_naive (s : Scene) {n : ℕ} (ray : Fin n → RayLane)
    (active : Fin n → Bool) : Except String (Fin n → Option SILane) :=
  match s.variant with
  | .SoftwareStructure => .ok (s.ray_intersect_naive_cpu ray active)
  | .HardwareBVH => .error "ray_intersect_naive"
  | .GPUBackend => .error "ray_intersect_naive"

/-- `math::Epsilon<Float>` for single precision (collaborator constant,
value immaterial to the proved claims). -/
def mathEpsilon : ℚ := 1 / 2 ^ 24

/-- `math::ShadowEpsilon<Float>` for single precision (collaborator
constant, value immaterial to the proved claims). -/
def shadowEpsilon : ℚ := 10 / 2 ^ 24

/-- `m_emitter_distr.sample_reuse_pdf(sample.x(), active)` at one lane:
(index, emitter_pdf, reused sample.x). -/
def Scene.pickEmitter (s : Scene) (x : ℚ) : ℕ × ℚ × ℚ :=
  s.emitter_distr.sample_reuse_pdf x

/-- `gather<EmitterPtr>(m_emitters.data(), index, active)` at one lane:
look up the emitter selected by the distribution for first sample
coordinate `x`. -/
def Scene.sampledEmitter (s : Scene) (x : ℚ) : Emitter :=
  s.emitters.getD (s.pickEmitter x).1 defaultEmitter

/-- `emitter->sample_direction(ref, sample, active)` at one lane, where the
first sample coordinate has been replaced by the reused remainder of the
discrete draw. -/
def Scene.emitterSampleLane (s : Scene) (r : InteractionLane) (samp : ℚ × ℚ) :
    DSLane × ℚ :=
  (s.sampledEmitter samp.1).sample_direction r ((s.pickEmitter samp.1).2.2, samp.2)

/-- The shadow ray of `Scene::sample_emitter_direction` at one lane:
`Ray3f(ref.p, ds.d, Epsilon * (1 + hmax(abs(ref.p))),
ds.dist * (1 - ShadowEpsilon), ref.time, ref.wavelengths)`. -/
def Scene.shadowRayLane (s : Scene) (r : InteractionLane) (samp : ℚ × ℚ) :
    RayLane :=
  { o := r.p
    d := (s.emitterSampleLane r samp).1.d
    mint := mathEpsilon * (1 + hmax (vabs r.p))
    maxt := (s.emitterSampleLane r samp).1.dist * (1 - shadowEpsilon)
    time := r.time
    wavelengths := r.wavelengths }

/-- `active &= neq(ds.pdf, 0.f)`: the active mask after deactivating lanes
whose sampled pdf is exactly zero. -/
def Scene.sedActive2 (s : Scene) {n : ℕ} (ref : Fin n → InteractionLane)
    (sample_ : Fin n → ℚ × ℚ) (active : Fin n → Bool) : Fin n → Bool :=
  fun i => active i && decide ((s.emitterSampleLane (ref i) (sample_ i)).1.pdf ≠ 0)

/-- `any_or<true>(active)` on a width-`n` mask. -/
def anyLane {n : ℕ} (m : Fin n → Bool) : Bool :=
  decide (∃ i, m i = true)

/-- Whether lane `i`'s radiance is zeroed by the visibility test: the test
was requested, some lane survived the pdf filter (`any_or<true>(active)`),
and `ray_test` on the shadow ray reports a hit at lane `i`. -/
def Scene.sedOccluded (s : Scene) {n : ℕ} (ref : Fin n → InteractionLane)
    (sample_ : Fin n → ℚ × ℚ) (test_visibility : Bool)
    (active : Fin n → Bool) : Fin n → Bool :=
  fun i =>
    test_visibility && anyLane (s.sedActive2 ref sample_ active)
      && s.ray_test (fun j => s.shadowRayLane (ref j) (sample_ j))
           (s.sedActive2 ref sample_ active) i

/-- `Scene::sample_emitter_direction`.  With an empty emitter list it
returns the default direction sample and zero radiance.  Otherwise, per
lane: draw (index, emitter_pdf, reused x) from the emitter distribution,
gather the selected emitter, delegate to its `sample_direction`, zero the
radiance of lanes whose shadow ray is occluded (when requested), multiply
the pdf by `emitter_pdf` and the radiance by `rcp(emitter_pdf)`. -/
def Scene.sample_emitter_direction (s : Scene) {n : ℕ}
    (ref : Fin n → InteractionLane) (sample_ : Fin n → ℚ × ℚ)
    (test_visibility : Bool) (active : Fin n → Bool) :
    DirectionSample3f n × (Fin n → ℚ) :=
  if s.emitters.isEmpty then
    (zeroDS n, fun _ => 0)
  else
    ({ d := fun i => (s.emitterSampleLane (ref i) (sample_ i)).1.d
       dist := fun i => (s.emitterSampleLane (ref i) (sample_ i)).1.dist
       pdf := fun i =>
         (s.emitterSampleLane (ref i) (sample_ i)).1.pdf
           * (s.pickEmitter (sample_ i).1).2.1 },
     fun i =>
       (if s.sedOccluded ref sample_ test_visibility active i then 0
        else (s.emitterSampleLane (ref i) (sample_ i)).2)
         * ((s.pickEmitter (sample_ i).1).2.1)⁻¹)

/-- The aggregation state of `Scene::Scene` while scanning the property
objects: the member collections as filled so far. -/
structure AggState where
  children : List SceneObject
  emitters : List Emitter
  sensors : List Sensor
  environment : Option Emitter
  integrator : Option Integrator
  bbox : SceneBBox

/-- The empty aggregation state (the freshly default-initialized members). -/
def initAgg : AggState :=
  { children := [], emitters := [], sensors := [], environment := none
    integrator := none, bbox := none }

/-- The shape branch of the classification: register the embedded emitter
and sensor, if any, and expand the running bounding box. -/
def applyShape (st : AggState) (sh : Shape) : AggState :=
  let st1 := match sh.emitter with
    | some e => { st with emitters := st.emitters ++ [e] }
    | none => st
  let st2 := match sh.sensor with
    | some sn => { st1 with sensors := st1.sensors ++ [sn] }
    | none => st1
  { st2 with bbox := expandBBox st2.bbox sh.bbox }

/-- Processing one object of the loop body of `Scene::Scene`: push it onto
`m_children`, then classify.  A second environment emitter and a second
integrator are fatal configuration errors (`Throw`), modelled as
`Except.error` carrying the thrown message. -/
def stepObj (st0 : AggState) (o : SceneObject) : Except String AggState :=
  let st := { st0 with children := st0.children ++ [o] }
  match o with
  | .shape sh => .ok (applyShape st sh)
  | .emitter e =>
      let st1 := { st with emitters := st.emitters ++ [e] }
      if e.is_environment then
        match st1.environment with
        | some _ => .error "Only one environment emitter can be specified per scene."
        | none => .ok { st1 with environment := some e }
      else .ok st1
  | .sensor sn => .ok { st with sensors := st.sensors ++ [sn] }
  | .integrator ig =>
      match st.integrator with
      | some _ => .error "Only one integrator can be specified per scene."
      | none => .ok { st with integrator := some ig }
  | .other _ => .ok st

/-- The object loop of `Scene::Scene`: process the objects in order; a
thrown configuration error aborts immediately (later objects are never
examined, no state survives). -/
def aggregate (st : AggState) : List SceneObject → Except String AggState
  | [] => .ok st
  | o :: rest =>
      match stepObj st o with
      | .ok st' => aggregate st' rest
      | .error e => .error e

/-- The properties of the synthesized default perspective sensor
(45° field of view; placement/clip/focus only when the bounding box is
valid).  `t` stands for the collaborator value `tan(45°/2) = tan(22.5°)`,
kept as a parameter because trigonometry is not exactly representable. -/
def defaultSensorProps (t : ℚ) : SceneBBox → SensorProps
  | none => { fov := 45 }
  | some b =>
      let distance := hmax b.extents / (2 * t)
      { fov := 45
        far_clip := some (hmax b.extents * 5 + distance)
        near_clip := some (distance / 100)
        focus_distance := some (distance + b.extents.z / 2)
        to_world := some ⟨b.center.x, b.center.y, b.lo.z - distance⟩ }

/-- The emitter-distribution build of `Scene::Scene`: start from an empty
table, append weight 1 once per emitter, and normalize when there is at
least one emitter. -/
def buildEmitterDistr (m : ℕ) : DiscreteDistribution :=
  let d := (List.range m).foldl (fun d _ => d.append 1) DiscreteDistribution.init
  if 0 < m then d.normalize else d

/-- `Scene::Scene` (the constructor): aggregate the objects; on success,
synthesize the default sensor when none was registered and the default
path-tracing integrator when none was registered, initialize the
acceleration backend (`variant`, `hits` — the backend build itself is an
external collaborator) and precompute the emitter distribution.  A
configuration error yields no scene at all. -/
def Scene.construct (t : ℚ) (variant : Backend) (hits : RayLane → Option SILane)
    (objs : List SceneObject) : Except String Scene :=
  match aggregate initAgg objs with
  | .error e => .error e
  | .ok st =>
      .ok { children := st.children
            emitters := st.emitters
            sensors :=
              if st.sensors.isEmpty then
                [Sensor.fromProps (defaultSensorProps t st.bbox)]
              else st.sensors
            environment := st.environment
            integrator := st.integrator.getD Integrator.defaultPath
            bbox := st.bbox
            emitter_distr := buildEmitterDistr st.emitters.length
            variant := variant
            hits := hits }

/-- Is the object a standalone emitter flagged as an environment emitter? -/
def isEnvEmitterObj : SceneObject → Bool
  | .emitter e => e.is_environment
  | _ => false

/-- Number of standalone environment emitters in an object collection. -/
def envCount (objs : List SceneObject) : ℕ :=
  objs.countP isEnvEmitterObj

/-- Is the object an integrator? -/
def isIntegratorObj : SceneObject → Bool
  | .integrator _ => true
  | _ => false

/-- Number of integrator objects in an object collection. -/
def integratorCount (objs : List SceneObject) : ℕ :=
  objs.countP isIntegratorObj

/-- Does the collection contribute no emitter at all (no standalone emitter
object and no shape with an embedded emitter)? -/
def noEmitterObjects (objs : List SceneObject) : Bool :=
  objs.all fun o =>
    match o with
    | .emitter _ => false
    | .shape sh => sh.emitter.isNone
    | _ => true

/-- Does the collection register no sensor (no sensor object and no shape
with an embedded sensor)? -/
def noSensorObjects (objs : List SceneObject) : Bool :=
  objs.all fun o =>
    match o with
    | .sensor _ => false
    | .shape sh => sh.sensor.isNone
    | _ => true

/-! Concrete fixtures used to instantiate the theorems below. -/

/-- A backend hit function that reports a hit for every ray. -/
def hitsAll : RayLane → Option SILane := fun _ => some { t := 1 }

/-- A backend hit function that reports no hit for any ray. -/
def hitsNone : RayLane → Option SILane := fun _ => none

/-- A concrete emitter whose `sample_direction` always returns direction
(0,0,1), distance 1, pdf 1 and radiance 1. -/
def em1 : Emitter :=
  { sample_direction := fun _ _ => ({ d := ⟨0, 0, 1⟩, dist := 1, pdf := 1 }, 1)
    is_environment := false }

/-- A concrete environment emitter. -/
def envEm : Emitter :=
  { sample_direction := fun _ _ => (zeroDSLane, 0), is_environment := true }

/-- A concrete scene with no emitters (software backend, no geometry). -/
def sceneE : Scene :=
  { children := [], emitters := [], sensors := [], environment := none
    integrator := .defaultPath, bbox := none
    emitter_distr := .init, variant := .SoftwareStructure, hits := hitsNone }

/-- The same scene configured with the Embree backend. -/
def sceneHW : Scene := { sceneE with variant := .HardwareBVH }

/-- A concrete scene with one emitter and fully occluding geometry. -/
def sceneH : Scene :=
  { sceneE with emitters := [em1], emitter_distr := ⟨[1]⟩, hits := hitsAll }

/-- `sceneH` with the occluder removed (identical emitters/distribution). -/
def sceneN : Scene := { sceneH with hits := hitsNone }

/-- A concrete reference-interaction lane at the origin. -/
def refLane0 : InteractionLane := { p := ⟨0, 0, 0⟩, time := 0, wavelengths := 0 }

/-- A width-1 reference batch. -/
def refB : Fin 1 → InteractionLane := fun _ => refLane0

/-- A width-1 2D random-sample batch. -/
def sampB : Fin 1 → ℚ × ℚ := fun _ => (0, 0)

/-- A width-1 all-active mask. -/
def actB : Fin 1 → Bool := fun _ => true

/-- A width-1 ray batch. -/
def rayB : Fin 1 → RayLane :=
  fun _ => { o := ⟨0, 0, 0⟩, d := ⟨0, 0, 1⟩, mint := 0, maxt := 1, time := 0
             wavelengths := 0 }

/-- A concrete shape spanning `[-1,-1,-1]` to `[1,1,1]`, with no embedded
emitter or sensor. -/
def shape0 : Shape :=
  { bbox := ⟨⟨-1, -1, -1⟩, ⟨1, 1, 1⟩⟩, emitter := none, sensor := none }

/-- The object list holding just `shape0`. -/
def objs5 : List SceneObject := [.shape shape0]

/-- The scene `Scene.construct 1 .SoftwareStructure hitsNone objs5`
produces (bounding box valid, sensor synthesized from the default
perspective properties with `t = 1`). -/
def scene5 : Scene :=
  { children := [.shape shape0], emitters := []
    sensors := [Sensor.fromProps (defaultSensorProps 1 (some shape0.bbox))]
    environment := none, integrator := .defaultPath
    bbox := some shape0.bbox, emitter_distr := buildEmitterDistr 0
    variant := .SoftwareStructure, hits := hitsNone }

/-- An object list holding two standalone (non-environment) emitters. -/
def objs8 : List SceneObject := [.emitter em1, .emitter em1]

/-- The scene `Scene.construct 1 .SoftwareStructure hitsNone objs8`
produces. -/
def scene8 : Scene :=
  { children := objs8, emitters := [em1, em1]
    sensors := [Sensor.fromProps (defaultSensorProps 1 none)]
    environment := none, integrator := .defaultPath
    bbox := none, emitter_distr := buildEmitterDistr 2
    variant := .SoftwareStructure, hits := hitsNone }

/-- An object list holding two environment emitters. -/
def objs4 : List SceneObject := [.emitter envEm, .emitter envEm]

/-! Helper lemmas. -/

/-- With an empty emitter list, `sample_emitter_direction` returns the zero
sample and zero radiance, for any inputs. -/
theorem sed_empty (s : Scene) {n : ℕ} (ref : Fin n → InteractionLane)
    (sample_ : Fin n → ℚ × ℚ) (tv : Bool) (active : Fin n → Bool)
    (h : s.emitters = []) :
    s.sample_emitter_direction ref sample_ tv active = (zeroDS n, fun _ => 0) := by
  unfold Scene.sample_emitter_direction
  rw [h]
  rfl

/-- Two scenes agreeing on their emitter list and emitter distribution have
the same per-lane emitter-sampling helpers. -/
theorem sed_helpers_congr (s s' : Scene) (hes : s'.emitters = s.emitters)
    (hd : s'.emitter_distr = s.emitter_distr) :
    s'.emitterSampleLane = s.emitterSampleLane ∧ s'.pickEmitter = s.pickEmitter := by
  have hp : s'.pickEmitter = s.pickEmitter := by
    funext x
    unfold Scene.pickEmitter
    rw [hd]
  refine ⟨?_, hp⟩
  funext r samp
  unfold Scene.emitterSampleLane Scene.sampledEmitter
  rw [hes, hp]

/-- The direction-sample component of `sample_emitter_direction` does not
depend on the scene geometry (the backend hit function) nor on the
`test_visibility` flag: two scenes with the same emitter list and emitter
distribution yield the same direction sample. -/
theorem sed_ds_congr (s s' : Scene) (hes : s'.emitters = s.emitters)
    (hd : s'.emitter_distr = s.emitter_distr) {n : ℕ}
    (ref : Fin n → InteractionLane) (sample_ : Fin n → ℚ × ℚ)
    (tv tv' : Bool) (active : Fin n → Bool) :
    (s.sample_emitter_direction ref sample_ tv active).1
      = (s'.sample_emitter_direction ref sample_ tv' active).1 := by
  obtain ⟨hel, hp⟩ := sed_helpers_congr s s' hes hd
  unfold Scene.sample_emitter_direction
  rw [hes, hel, hp]
  cases hL : s.emitters with
  | nil => rfl
  | cons a l => rfl

/-- An occluded lane is in particular an active lane that survived the pdf
filter. -/
theorem sedOccluded_active (s : Scene) {n : ℕ} (ref : Fin n → InteractionLane)
    (sample_ : Fin n → ℚ × ℚ) (tv : Bool) (active : Fin n → Bool) (i : Fin n)
    (h : s.sedOccluded ref sample_ tv active i = true) :
    s.sedActive2 ref sample_ active i = true := by
  unfold Scene.sedOccluded Scene.ray_test at h
  simp only [Bool.and_eq_true] at h
  exact h.2.1

/-- An occluded lane forces a non-empty emitter list: with no emitters the
gathered default emitter has zero pdf, so no lane survives the pdf filter. -/
theorem sedOccluded_ne_nil (s : Scene) {n : ℕ} (ref : Fin n → InteractionLane)
    (sample_ : Fin n → ℚ × ℚ) (tv : Bool) (active : Fin n → Bool) (i : Fin n)
    (h : s.sedOccluded ref sample_ tv active i = true) :
    s.emitters ≠ [] := by
  intro hL
  have h2 := sedOccluded_active s ref sample_ tv active i h
  unfold Scene.sedActive2 at h2
  simp only [Bool.and_eq_true, decide_eq_true_eq] at h2
  apply h2.2
  unfold Scene.emitterSampleLane Scene.sampledEmitter
  rw [hL]
  rfl

/-- Claim C1: for every call to `sample_emitter_direction` on a scene whose
emitter list is empty, and for every reference point, 2D random sample,
`test_visibility` flag and active mask, the returned `DirectionSample` is
the zero/default sample (pdf zero) and the returned radiance is zero, on
every lane. -/
theorem claim_C1_empty_emitter_list (s : Scene) {n : ℕ}
    (ref : Fin n → InteractionLane) (sample_ : Fin n → ℚ × ℚ) (tv : Bool)
    (active : Fin n → Bool) (h : s.emitters = []) :
    s.sample_emitter_direction ref sample_ tv active = (zeroDS n, fun _ => 0) :=
  sed_empty s ref sample_ tv active h

theorem claim_C1_witness :
    sceneE.emitters = []
  ∧ sceneE.sample_emitter_direction refB sampB false actB = (zeroDS 1, fun _ => 0) :=
  ⟨rfl, claim_C1_empty_emitter_list sceneE refB sampB false actB rfl⟩

/-- Claim C2: on a scene with a non-empty emitter list, for every active
lane `i`, the returned pdf equals the selected emitter's own
`sample_direction` pdf multiplied by the discrete selection probability
returned by the emitter distribution, and the returned radiance equals the
(possibly visibility-zeroed) emitter radiance multiplied by the reciprocal
of that selection probability. -/
theorem claim_C2_pdf_chain_rule (s : Scene) {n : ℕ}
    (ref : Fin n → InteractionLane) (sample_ : Fin n → ℚ × ℚ) (tv : Bool)
    (active : Fin n → Bool) (i : Fin n) (hne : s.emitters ≠ [])
    (_ha : active i = true) :
    (s.sample_emitter_direction ref sample_ tv active).1.pdf i
      = (s.emitterSampleLane (ref i) (sample_ i)).1.pdf
          * (s.pickEmitter (sample_ i).1).2.1
  ∧ (s.sample_emitter_direction ref sample_ tv active).2 i
      = (if s.sedOccluded ref sample_ tv active i then 0
         else (s.emitterSampleLane (ref i) (sample_ i)).2)
          * ((s.pickEmitter (sample_ i).1).2.1)⁻¹ := by
  cases hL : s.emitters with
  | nil => exact absurd hL hne
  | cons a l =>
    unfold Scene.sample_emitter_direction
    rw [hL]
    exact ⟨rfl, rfl⟩

theorem claim_C2_witness :
    (sceneH.sample_emitter_direction refB sampB false actB).1.pdf 0
      = (sceneH.emitterSampleLane (refB 0) (sampB 0)).1.pdf
          * (sceneH.pickEmitter (sampB 0).1).2.1
  ∧ (sceneH.sample_emitter_direction refB sampB false actB).2 0
      = (if sceneH.sedOccluded refB sampB false actB 0 then 0
         else (sceneH.emitterSampleLane (refB 0) (sampB 0)).2)
          * ((sceneH.pickEmitter (sampB 0).1).2.1)⁻¹ :=
  claim_C2_pdf_chain_rule sceneH refB sampB false actB 0
    (List.cons_ne_nil em1 []) rfl

/-- Claim C3: with `test_visibility = true`, on every lane whose shadow ray
reports a hit only the radiance is zeroed; the returned direction sample
(direction, distance, pdf) is identical to the one the same call returns on
a scene with the occluder absent (same emitters, same distribution,
different geometry). -/
theorem claim_C3_visibility_zeroes_radiance_only (s sNoOcc : Scene) {n : ℕ}
    (ref : Fin n → InteractionLane) (sample_ : Fin n → ℚ × ℚ)
    (active : Fin n → Bool) (i : Fin n)
    (hes : sNoOcc.emitters = s.emitters)
    (hd : sNoOcc.emitter_distr = s.emitter_distr)
    (hocc : s.sedOccluded ref sample_ true active i = true) :
    (s.sample_emitter_direction ref sample_ true active).2 i = 0
  ∧ (s.sample_emitter_direction ref sample_ true active).1
      = (sNoOcc.sample_emitter_direction ref sample_ true active).1 := by
  constructor
  · have hne := sedOccluded_ne_nil s ref sample_ true active i hocc
    cases hL : s.emitters with
    | nil => exact absurd hL hne
    | cons a l =>
      unfold Scene.sample_emitter_direction
      rw [hL]
      show (if s.sedOccluded ref sample_ true active i = true then (0 : ℚ)
            else (s.emitterSampleLane (ref i) (sample_ i)).2)
           * ((s.pickEmitter (sample_ i).1).2.1)⁻¹ = 0
      rw [hocc]
      simp
  · exact sed_ds_congr s sNoOcc hes hd ref sample_ true true active

theorem claim_C3_witness :
    (sceneH.sample_emitter_direction refB sampB true actB).2 0 = 0
  ∧ (sceneH.sample_emitter_direction refB sampB true actB).1
      = (sceneN.sample_emitter_direction refB sampB true actB).1 :=
  claim_C3_visibility_zeroes_radiance_only sceneH sceneN refB sampB actB 0
    rfl rfl (by decide)

/-- Claim C6: `ray_intersect_naive` returns the brute-force result on the
`SoftwareStructure` backend and fails with the "not implemented" signal on
the Embree and GPU backends. -/
theorem claim_C6_naive_dispatch (s : Scene) {n : ℕ} (ray : Fin n → RayLane)
    (active : Fin n → Bool) :
    (s.variant = Backend.SoftwareStructure →
      s.ray_intersect_naive ray active = .ok (s.ray_intersect_naive_cpu ray active))
  ∧ (s.variant ≠ Backend.SoftwareStructure →
      s.ray_intersect_naive ray active = .error "ray_intersect_naive") := by
  constructor
  · intro h
    unfold Scene.ray_intersect_naive
    rw [h]
  · intro h
    unfold Scene.ray_intersect_naive
    cases hv : s.variant with
    | SoftwareStructure => exact absurd hv h
    | HardwareBVH => rfl
    | GPUBackend => rfl

theorem claim_C6_witness :
    sceneE.ray_intersect_naive rayB actB
      = .ok (sceneE.ray_intersect_naive_cpu rayB actB)
  ∧ sceneHW.ray_intersect_naive rayB actB = .error "ray_intersect_naive" :=
  ⟨(claim_C6_naive_dispatch sceneE rayB actB).1 rfl,
   (claim_C6_naive_dispatch sceneHW rayB actB).2 (by decide)⟩

/-- Claim C7: for every scene, ray batch and active lane, `ray_test`
reports a hit exactly when `ray_intersect` reports a hit on the same
scene. -/
theorem claim_C7_ray_test_agrees (s : Scene) {n : ℕ} (ray : Fin n → RayLane)
    (active : Fin n → Bool) (i : Fin n) (h : active i = true) :
    s.ray_test ray active i = (s.ray_intersect ray active i).isSome := by
  unfold Scene.ray_test Scene.ray_intersect
  rw [h]
  simp

theorem claim_C7_witness :
    sceneH.ray_test rayB actB 0 = (sceneH.ray_intersect rayB actB 0).isSome :=
  claim_C7_ray_test_agrees sceneH rayB actB 0 rfl

/-- Claim C9: `sample_emitter_direction` is deterministic — for a fixed
scene, identical reference points, random samples, visibility flags and
active masks produce identical results. -/
theorem claim_C9_deterministic (s : Scene) {n : ℕ}
    (refA refC : Fin n → InteractionLane) (sA sC : Fin n → ℚ × ℚ)
    (tvA tvC : Bool) (aA aC : Fin n → Bool)
    (h1 : refA = refC) (h2 : sA = sC) (h3 : tvA = tvC) (h4 : aA = aC) :
    s.sample_emitter_direction refA sA tvA aA
      = s.sample_emitter_direction refC sC tvC aC := by
  subst h1
  subst h2
  subst h3
  subst h4
  rfl

theorem claim_C9_witness :
    sceneH.sample_emitter_direction refB sampB true actB
      = sceneH.sample_emitter_direction refB sampB true actB :=
  claim_C9_deterministic sceneH refB refB sampB sampB true true actB actB
    rfl rfl rfl rfl

/-! Aggregation lemmas. -/

/-- Processing a shape never changes the registered environment emitter. -/
theorem applyShape_environment (st : AggState) (sh : Shape) :
    (applyShape st sh).environment = st.environment := by
  unfold applyShape
  cases sh.emitter <;> cases sh.sensor <;> rfl

/-- Processing a shape never changes the registered integrator. -/
theorem applyShape_integrator (st : AggState) (sh : Shape) :
    (applyShape st sh).integrator = st.integrator := by
  unfold applyShape
  cases sh.emitter <;> cases sh.sensor <;> rfl

/-- Processing a shape without an embedded emitter leaves the emitter list
unchanged. -/
theorem applyShape_emitters (st : AggState) (sh : Shape)
    (h : sh.emitter = none) : (applyShape st sh).emitters = st.emitters := by
  unfold applyShape
  rw [h]
  cases sh.sensor <;> rfl

/-- Processing a shape without an embedded sensor leaves the sensor list
unchanged. -/
theorem applyShape_sensors (st : AggState) (sh : Shape)
    (h : sh.sensor = none) : (applyShape st sh).sensors = st.sensors := by
  unfold applyShape
  cases he : sh.emitter <;> rw [h]

/-- One unfolding step of the aggregation loop. -/
theorem aggregate_cons (st : AggState) (o : SceneObject)
    (rest : List SceneObject) :
    aggregate st (o :: rest)
      = match stepObj st o with
        | .ok st' => aggregate st' rest
        | .error e => .error e := rfl

/-- Aggregation over a concatenation runs the first part first; an error in
the first part short-circuits the second. -/
theorem aggregate_append (st : AggState) (l1 l2 : List SceneObject) :
    aggregate st (l1 ++ l2)
      = match aggregate st l1 with
        | .ok st' => aggregate st' l2
        | .error e => .error e := by
  induction l1 generalizing st with
  | nil => rfl
  | cons o rest ih =>
    rw [List.cons_append, aggregate_cons, aggregate_cons]
    cases stepObj st o with
    | ok st' => exact ih st'
    | error e => rfl

/-- If a collection holds at least two standalone environment emitters
beyond what the running state can still absorb, aggregation throws. -/
theorem aggregate_env_fail (objs : List SceneObject) :
    ∀ st : AggState,
      2 ≤ envCount objs + (if st.environment.isSome then 1 else 0) →
      ∃ e, aggregate st objs = .error e := by
  induction objs with
  | nil =>
    intro st h
    exfalso
    unfold envCount at h
    simp only [List.countP_nil, Nat.zero_add] at h
    cases hst : st.environment <;> rw [hst] at h <;> simp at h
  | cons o rest ih =>
    intro st h
    unfold envCount at h
    rw [List.countP_cons] at h
    cases o with
    | shape sh =>
      have hcnt : 2 ≤ envCount rest
          + (if (applyShape { st with children := st.children ++ [.shape sh] } sh).environment.isSome
             then 1 else 0) := by
        rw [applyShape_environment]
        simpa [isEnvEmitterObj, envCount] using h
      obtain ⟨e, he⟩ := ih _ hcnt
      exact ⟨e, by unfold aggregate stepObj; exact he⟩
    | emitter em =>
      by_cases henv : em.is_environment
      · cases hst : st.environment with
        | some e0 =>
          refine ⟨"Only one environment emitter can be specified per scene.", ?_⟩
          unfold aggregate stepObj
          simp only [henv, if_true, hst]
        | none =>
          have hcnt : 2 ≤ envCount rest + 1 := by
            simp only [isEnvEmitterObj, henv, if_true, hst] at h
            simpa [envCount] using h
          obtain ⟨e, he⟩ := ih
            { st with children := st.children ++ [.emitter em]
                      emitters := st.emitters ++ [em]
                      environment := some em }
            (by simpa using hcnt)
          refine ⟨e, ?_⟩
          unfold aggregate stepObj
          simp only [henv, if_true, hst]
          exact he
      · have hcnt : 2 ≤ envCount rest
            + (if st.environment.isSome then 1 else 0) := by
          simp only [isEnvEmitterObj, henv] at h
          simpa [envCount] using h
        obtain ⟨e, he⟩ := ih
          { st with children := st.children ++ [.emitter em]
                    emitters := st.emitters ++ [em] }
          (by simpa using hcnt)
        refine ⟨e, ?_⟩
        unfold aggregate stepObj
        simp only [henv, if_false, Bool.false_eq_true]
        exact he
    | sensor sn =>
      have hcnt : 2 ≤ envCount rest + (if st.environment.isSome then 1 else 0) := by
        simpa [isEnvEmitterObj, envCount] using h
      obtain ⟨e, he⟩ := ih
        { st with children := st.children ++ [.sensor sn]
                  sensors := st.sensors ++ [sn] }
        (by simpa using hcnt)
      exact ⟨e, by unfold aggregate stepObj; exact he⟩
    | integrator ig =>
      cases hst : st.integrator with
      | some ig0 =>
        refine ⟨"Only one integrator can be specified per scene.", ?_⟩
        unfold aggregate stepObj
        simp only [hst]
      | none =>
        have hcnt : 2 ≤ envCount rest + (if st.environment.isSome then 1 else 0) := by
          simpa [isEnvEmitterObj, envCount] using h
        obtain ⟨e, he⟩ := ih
          { st with children := st.children ++ [.integrator ig]
                    integrator := some ig }
          (by simpa using hcnt)
        refine ⟨e, ?_⟩
        unfold aggregate stepObj
        simp only [hst]
        exact he
    | other id =>
      have hcnt : 2 ≤ envCount rest + (if st.environment.isSome then 1 else 0) := by
        simpa [isEnvEmitterObj, envCount] using h
      obtain ⟨e, he⟩ := ih
        { st with children := st.children ++ [.other id] }
        (by simpa using hcnt)
      exact ⟨e, by unfold aggregate stepObj; exact he⟩

/-- On success, aggregation of a collection that registers no sensor leaves
the sensor list unchanged. -/
theorem aggregate_sensors_pres (objs : List SceneObject) :
    ∀ st st' : AggState, aggregate st objs = .ok st' →
      noSensorObjects objs = true → st'.sensors = st.sensors := by
  induction objs with
  | nil =>
    intro st st' h _
    injection h with h2
    rw [← h2]
  | cons o rest ih =>
    intro st st' h hno
    unfold noSensorObjects at hno
    rw [List.all_cons] at hno
    simp only [Bool.and_eq_true] at hno
    obtain ⟨hhead, hrest⟩ := hno
    rw [aggregate_cons] at h
    cases o with
    | shape sh =>
      simp only [stepObj] at h
      have hsen : sh.sensor = none := by
        simpa using hhead
      have := ih _ _ h hrest
      rw [this, applyShape_sensors _ _ hsen]
    | emitter em =>
      simp only [stepObj] at h
      cases henv : em.is_environment with
      | true =>
        rw [henv] at h
        simp only [if_true] at h
        cases hst : st.environment with
        | some e0 =>
          rw [hst] at h
          exact Except.noConfusion h
        | none =>
          rw [hst] at h
          rw [ih _ _ h hrest]
      | false =>
        rw [henv] at h
        simp only [Bool.false_eq_true, if_false] at h
        rw [ih _ _ h hrest]
    | sensor sn =>
      simp at hhead
    | integrator ig =>
      simp only [stepObj] at h
      cases hst : st.integrator with
      | some ig0 =>
        rw [hst] at h
        exact Except.noConfusion h
      | none =>
        rw [hst] at h
        rw [ih _ _ h hrest]
    | other id =>
      simp only [stepObj] at h
      rw [ih _ _ h hrest]

/-- A collection that contributes no emitter and at most one integrator
(counting one already registered) aggregates successfully without touching
the emitter list or the environment slot. -/
theorem aggregate_ok_no_emitters (objs : List SceneObject) :
    ∀ st : AggState, noEmitterObjects objs = true →
      integratorCount objs + (if st.integrator.isSome then 1 else 0) ≤ 1 →
      ∃ st', aggregate st objs = .ok st' ∧ st'.emitters = st.emitters := by
  induction objs with
  | nil => exact fun st _ _ => ⟨st, rfl, rfl⟩
  | cons o rest ih =>
    intro st hno hcnt
    unfold noEmitterObjects at hno
    rw [List.all_cons] at hno
    simp only [Bool.and_eq_true] at hno
    obtain ⟨hhead, hrest⟩ := hno
    unfold integratorCount at hcnt
    rw [List.countP_cons] at hcnt
    cases o with
    | shape sh =>
      have hse : sh.emitter = none := by
        simpa using hhead
      have hcnt' : integratorCount rest
          + (if (applyShape { st with children := st.children ++ [SceneObject.shape sh] } sh).integrator.isSome
             then 1 else 0) ≤ 1 := by
        rw [applyShape_integrator]
        simpa [isIntegratorObj, integratorCount] using hcnt
      obtain ⟨st', hagg, hem⟩ := ih _ hrest hcnt'
      refine ⟨st', ?_, ?_⟩
      · rw [aggregate_cons]
        exact hagg
      · rw [hem, applyShape_emitters _ _ hse]
    | emitter em =>
      simp at hhead
    | sensor sn =>
      have hcnt' : integratorCount rest
          + (if st.integrator.isSome then 1 else 0) ≤ 1 := by
        simpa [isIntegratorObj, integratorCount] using hcnt
      obtain ⟨st', hagg, hem⟩ := ih
        { st with children := st.children ++ [SceneObject.sensor sn]
                  sensors := st.sensors ++ [sn] }
        hrest (by simpa using hcnt')
      refine ⟨st', ?_, ?_⟩
      · rw [aggregate_cons]
        exact hagg
      · rw [hem]
    | integrator ig =>
      cases hint : st.integrator with
      | some ig0 =>
        exfalso
        rw [hint] at hcnt
        simp [isIntegratorObj] at hcnt
      | none =>
        have hcnt' : integratorCount rest + 1 ≤ 1 := by
          rw [hint] at hcnt
          simp only [isIntegratorObj, if_true, Option.isSome_none] at hcnt
          simpa [integratorCount] using hcnt
        obtain ⟨st', hagg, hem⟩ := ih
          { st with children := st.children ++ [SceneObject.integrator ig]
                    integrator := some ig }
          hrest (by simpa using hcnt')
        refine ⟨st', ?_, ?_⟩
        · rw [aggregate_cons]
          show (match stepObj st (.integrator ig) with
                | .ok st2 => aggregate st2 rest
                | .error e => .error e) = .ok st'
          simp only [stepObj, hint]
          exact hagg
        · rw [hem]
    | other id =>
      have hcnt' : integratorCount rest
          + (if st.integrator.isSome then 1 else 0) ≤ 1 := by
        simpa [isIntegratorObj, integratorCount] using hcnt
      obtain ⟨st', hagg, hem⟩ := ih
        { st with children := st.children ++ [SceneObject.other id] }
        hrest (by simpa using hcnt')
      refine ⟨st', ?_, ?_⟩
      · rw [aggregate_cons]
        exact hagg
      · rw [hem]

/-- Folding `append 1` once per list element appends that many unit
weights. -/
theorem appendFold_weights (l : List ℕ) (d : DiscreteDistribution) :
    (l.foldl (fun d _ => d.append 1) d).weights
      = d.weights ++ List.replicate l.length 1 := by
  induction l generalizing d with
  | nil => simp
  | cons a l ih =>
    rw [List.foldl_cons, ih]
    simp [DiscreteDistribution.append, List.replicate_succ]

/-- The emitter distribution built for `m > 0` emitters has `m` normalized
weights, each `1/m`. -/
theorem buildEmitterDistr_weights (m : ℕ) (h : 0 < m) :
    (buildEmitterDistr m).weights = List.replicate m ((m : ℚ))⁻¹ := by
  unfold buildEmitterDistr
  rw [if_pos h]
  unfold DiscreteDistribution.normalize
  rw [appendFold_weights]
  simp only [DiscreteDistribution.init, List.nil_append, List.length_range]
  rw [List.sum_replicate, nsmul_eq_mul, mul_one, List.map_replicate, one_div]

/-- `m` copies of `1/m` sum to 1 for `m > 0`. -/
theorem replicate_inv_sum (m : ℕ) (h : 0 < m) :
    (List.replicate m ((m : ℚ))⁻¹).sum = 1 := by
  rw [List.sum_replicate, nsmul_eq_mul]
  exact mul_inv_cancel₀ (Nat.cast_ne_zero.mpr h.ne')

/-- Inversion of a successful construction: the produced scene's fields in
terms of the final aggregation state. -/
theorem construct_ok_inv (t : ℚ) (variant : Backend)
    (hits : RayLane → Option SILane) (objs : List SceneObject) (s : Scene)
    (h : Scene.construct t variant hits objs = .ok s) :
    ∃ st, aggregate initAgg objs = .ok st
      ∧ s.emitters = st.emitters
      ∧ s.sensors = (if st.sensors.isEmpty then
            [Sensor.fromProps (defaultSensorProps t st.bbox)] else st.sensors)
      ∧ s.bbox = st.bbox
      ∧ s.emitter_distr = buildEmitterDistr st.emitters.length := by
  unfold Scene.construct at h
  cases hA : aggregate initAgg objs with
  | error e =>
    rw [hA] at h
    exact Except.noConfusion h
  | ok st =>
    rw [hA] at h
    injection h with h2
    exact ⟨st, rfl, by rw [← h2], by rw [← h2], by rw [← h2], by rw [← h2]⟩

/-- Claim C4: a collection whose prefix `l1` already holds two standalone
environment emitters fails construction with a configuration error the
moment the second one is reached — the objects after the prefix never
change the outcome — and no scene instance is produced. -/
theorem claim_C4_second_environment_fatal (t : ℚ) (variant : Backend)
    (hits : RayLane → Option SILane) (l1 l2 : List SceneObject)
    (h : 2 ≤ envCount l1) :
    Scene.construct t variant hits (l1 ++ l2) = Scene.construct t variant hits l1
  ∧ ∀ s, Scene.construct t variant hits (l1 ++ l2) ≠ .ok s := by
  obtain ⟨e, he⟩ := aggregate_env_fail l1 initAgg (by simpa [initAgg] using h)
  have happ : aggregate initAgg (l1 ++ l2) = .error e := by
    rw [aggregate_append, he]
  constructor
  · unfold Scene.construct
    rw [happ, he]
  · intro s
    unfold Scene.construct
    rw [happ]
    simp

theorem claim_C4_witness :
    Scene.construct 1 Backend.SoftwareStructure hitsNone (objs4 ++ [.other 0])
      = Scene.construct 1 Backend.SoftwareStructure hitsNone objs4
  ∧ ∀ s, Scene.construct 1 Backend.SoftwareStructure hitsNone
      (objs4 ++ [.other 0]) ≠ .ok s :=
  claim_C4_second_environment_fatal 1 .SoftwareStructure hitsNone objs4
    [.other 0] (by decide)

/-- Claim C5: when no sensor was registered and the bounding box is valid,
the synthesized default perspective sensor has a 45° field of view and is
offset behind the box along the z axis at distance
`d = hmax(extents) / (2·t)` (with `t = tan(22.5°)`), with near clip
`d/100`, far clip `hmax(extents)·5 + d`, focus distance
`d + extents.z/2`, and position `(center.x, center.y, lo.z - d)`. -/
theorem claim_C5_default_sensor (t : ℚ) (variant : Backend)
    (hits : RayLane → Option SILane) (objs : List SceneObject) (s : Scene)
    (bx : Box) (h1 : Scene.construct t variant hits objs = .ok s)
    (h2 : noSensorObjects objs = true) (h3 : s.bbox = some bx) :
    s.sensors = [Sensor.fromProps
      { fov := 45
        near_clip := some (hmax bx.extents / (2 * t) / 100)
        far_clip := some (hmax bx.extents * 5 + hmax bx.extents / (2 * t))
        focus_distance := some (hmax bx.extents / (2 * t) + bx.extents.z / 2)
        to_world := some ⟨bx.center.x, bx.center.y,
                          bx.lo.z - hmax bx.extents / (2 * t)⟩ }] := by
  obtain ⟨st, hA, hem, hsens, hbb, hdist⟩ := construct_ok_inv t variant hits objs s h1
  have hs0 : st.sensors = [] := by
    rw [aggregate_sensors_pres objs initAgg st hA h2]
    rfl
  rw [hbb] at h3
  rw [hsens, hs0, h3]
  rfl

theorem claim_C5_witness :
    scene5.sensors = [Sensor.fromProps
      { fov := 45
        near_clip := some (hmax shape0.bbox.extents / (2 * 1) / 100)
        far_clip := some (hmax shape0.bbox.extents * 5
                          + hmax shape0.bbox.extents / (2 * 1))
        focus_distance := some (hmax shape0.bbox.extents / (2 * 1)
                                + shape0.bbox.extents.z / 2)
        to_world := some ⟨shape0.bbox.center.x, shape0.bbox.center.y,
                          shape0.bbox.lo.z - hmax shape0.bbox.extents / (2 * 1)⟩ }] :=
  claim_C5_default_sensor 1 .SoftwareStructure hitsNone objs5 scene5
    shape0.bbox rfl rfl rfl

/-- Claim C8: a scene constructed with `m > 0` emitters carries the emitter
distribution built from uniform weight 1 per emitter and normalized: its
normalized weights are `m` copies of `1/m`, they sum to 1, and every
emitter's selection probability is `1/m`. -/
theorem claim_C8_uniform_distribution (t : ℚ) (variant : Backend)
    (hits : RayLane → Option SILane) (objs : List SceneObject) (s : Scene)
    (m : ℕ) (h : Scene.construct t variant hits objs = .ok s)
    (hm : s.emitters.length = m) (hpos : 0 < m) :
    s.emitter_distr.weights = List.replicate m ((m : ℚ))⁻¹
  ∧ s.emitter_distr.weights.sum = 1
  ∧ ∀ w ∈ s.emitter_distr.weights, w = ((m : ℚ))⁻¹ := by
  obtain ⟨st, hA, hem, hsens, hbb, hdist⟩ := construct_ok_inv t variant hits objs s h
  have hw : s.emitter_distr.weights = List.replicate m ((m : ℚ))⁻¹ := by
    rw [hdist, ← hem, hm, buildEmitterDistr_weights m hpos]
  refine ⟨hw, ?_, ?_⟩
  · rw [hw]
    exact replicate_inv_sum m hpos
  · intro w hwmem
    rw [hw] at hwmem
    exact List.eq_of_mem_replicate hwmem

theorem claim_C8_witness :
    scene8.emitter_distr.weights = List.replicate 2 ((2 : ℚ))⁻¹
  ∧ scene8.emitter_distr.weights.sum = 1
  ∧ ∀ w ∈ scene8.emitter_distr.weights, w = ((2 : ℚ))⁻¹ :=
  claim_C8_uniform_distribution 1 .SoftwareStructure hitsNone objs8 scene8 2
    rfl rfl (by decide)

/-- Claim C10: constructing a scene from a collection contributing no
emitter (and at most one integrator) succeeds, the resulting emitter list
is empty, and `sample_emitter_direction` returns the zero sample and zero
radiance without ever reading the emitter distribution (the result is the
same for every distribution stored in the scene). -/
theorem claim_C10_zero_emitters_safe (t : ℚ) (variant : Backend)
    (hits : RayLane → Option SILane) (objs : List SceneObject)
    (h1 : noEmitterObjects objs = true) (h2 : integratorCount objs ≤ 1) :
    ∃ s, Scene.construct t variant hits objs = .ok s ∧ s.emitters = []
      ∧ ∀ (d' : DiscreteDistribution) (n : ℕ) (ref : Fin n → InteractionLane)
          (sample_ : Fin n → ℚ × ℚ) (tv : Bool) (active : Fin n → Bool),
          ({ s with emitter_distr := d' } : Scene).sample_emitter_direction
              ref sample_ tv active = (zeroDS n, fun _ => 0) := by
  obtain ⟨st, hA, hem⟩ := aggregate_ok_no_emitters objs initAgg h1
    (by simpa [initAgg] using h2)
  have hok : Scene.construct t variant hits objs = .ok
      { children := st.children
        emitters := st.emitters
        sensors := (if st.sensors.isEmpty then
            [Sensor.fromProps (defaultSensorProps t st.bbox)] else st.sensors)
        environment := st.environment
        integrator := st.integrator.getD Integrator.defaultPath
        bbox := st.bbox
        emitter_distr := buildEmitterDistr st.emitters.length
        variant := variant
        hits := hits } := by
    unfold Scene.construct
    rw [hA]
  have hnil : st.emitters = [] := by
    rw [hem]
    rfl
  refine ⟨_, hok, hnil, ?_⟩
  intro d' n ref sample_ tv active
  exact sed_empty _ ref sample_ tv active hnil

theorem claim_C10_witness :
    ∃ s, Scene.construct 1 Backend.SoftwareStructure hitsNone
        [SceneObject.other 0] = .ok s ∧ s.emitters = []
      ∧ ∀ (d' : DiscreteDistribution) (n : ℕ) (ref : Fin n → InteractionLane)
          (sample_ : Fin n → ℚ × ℚ) (tv : Bool) (active : Fin n → Bool),
          ({ s with emitter_distr := d' } : Scene).sample_emitter_direction
              ref sample_ tv active = (zeroDS n, fun _ => 0) :=
  claim_C10_zero_emitters_safe 1 .SoftwareStructure hitsNone
    [.other 0] rfl (by decide)
